import Mathlib

/-!
# Verification of the PSP-emulation payment core

A shallow embedding of the TypeScript payment-transaction core:

* `src/enums/transactionStatus.ts` — the status enum;
* `src/domain/transactionStateMachine.ts` — `canTransition`,
  `assertTransition`, `isTerminalStatus`;
* `src/repositories/transactionRepository.ts` (PostgreSQL-backed) and the
  in-memory repository — `create`, `updateStatus`,
  `findAndLockByPspTransactionId` with commit/rollback semantics;
* `src/services/webhookService.ts` — `processWebhook`;
* `src/services/transactionService.ts` — `createTransaction`, `callPsp`
  retry loop, `isRetryable`;
* `src/psp-simulator/pspService.ts` — card-prefix outcome rules, the
  pending-3DS registry, its expiry timer and `resolve3dsTransaction`.

Stateful code is embedded as explicit state passing: the database is a list
of rows, a locked handle is a pair (base state, tentative state), timers are
an explicit armed-set acted on by a small-step event semantics, and the
`fetch`-based PSP call is driven by an oracle giving each attempt's result.
-/

namespace PSPEmulation

/-! ## Status enum (`src/enums/transactionStatus.ts`) -/

/-- The four internal transaction statuses of `STATUSES`. -/
inductive TransactionStatus where
  | CREATED
  | PENDING_3DS
  | SUCCESS
  | FAILED
deriving DecidableEq, Repr, Fintype

/-- The string value of each status constant (the TS enum is string-valued). -/
def TransactionStatus.str : TransactionStatus → String
  | .CREATED => "CREATED"
  | .PENDING_3DS => "PENDING_3DS"
  | .SUCCESS => "SUCCESS"
  | .FAILED => "FAILED"

/-! ## State machine (`src/domain/transactionStateMachine.ts`) -/

/-- `VALID_TRANSITIONS`: allowed target statuses per source status. -/
def VALID_TRANSITIONS : TransactionStatus → List TransactionStatus
  | .CREATED => [.PENDING_3DS, .SUCCESS, .FAILED]
  | .PENDING_3DS => [.SUCCESS, .FAILED]
  | .SUCCESS => []
  | .FAILED => []

/-- `canTransition(fromStatus, toStatus)`. -/
def canTransition (fromStatus toStatus : TransactionStatus) : Bool :=
  (VALID_TRANSITIONS fromStatus).contains toStatus

/-- The error message thrown by `assertTransition` when a transition is
illegal. -/
def invalidTransitionMsg (fromStatus toStatus : TransactionStatus) : String :=
  "Invalid state transition from " ++ "'" ++ fromStatus.str ++ "'" ++ " to " ++
    "'" ++ toStatus.str ++ "'"

/-- `assertTransition(fromStatus, toStatus)`: `.ok` when legal, `.error`
with the thrown message when not. -/
def assertTransition (fromStatus toStatus : TransactionStatus) :
    Except String Unit :=
  if canTransition fromStatus toStatus then .ok ()
  else .error (invalidTransitionMsg fromStatus toStatus)

/-- `isTerminalStatus(status)`. -/
def isTerminalStatus (status : TransactionStatus) : Bool :=
  status == .SUCCESS || status == .FAILED

/-! ## Transaction records and the store

`TransactionRecord` from `src/types/transaction.ts`; `Date` timestamps are
embedded as `Nat` instants supplied by the caller where the source calls
`NOW()` / `new Date()`. The store is the list of rows of the `transactions`
table (respectively the values of the in-memory `Map`). -/

structure TransactionRecord where
  id : String
  orderId : String
  amount : Nat
  currency : String
  cardNumber : String
  status : TransactionStatus
  pspTransactionId : Option String
  finalAmount : Option Nat
  createdAt : Nat
  updatedAt : Nat
deriving DecidableEq, Repr

/-- `CreateTransactionData` from `src/types/transaction.ts`. -/
structure CreateTransactionData where
  id : String
  orderId : String
  amount : Nat
  currency : String
  cardNumber : String
  status : TransactionStatus
deriving DecidableEq, Repr

/-- `UpdateExtraFields`: optional fields of `updateStatus`; `none` embeds an
absent (`undefined`) field. -/
structure UpdateExtraFields where
  pspTransactionId : Option String := none
  finalAmount : Option Nat := none
deriving DecidableEq, Repr

abbrev Store := List TransactionRecord

/-- Whether some row has the given internal id. -/
def hasId (store : Store) (id : String) : Bool :=
  store.any (fun t => t.id == id)

/-- Row lookup by internal id (`findById` / `WHERE id = $1`). -/
def findById (store : Store) (id : String) : Option TransactionRecord :=
  store.find? (fun t => t.id == id)

/-- Row lookup by PSP transaction id (`findByPspTransactionId` /
`WHERE psp_transaction_id = $1`); a `NULL` column never matches. -/
def findByPspId (store : Store) (pspId : String) : Option TransactionRecord :=
  store.find? (fun t => t.pspTransactionId == some pspId)

/-- The `SET` clause of `updateStatus` applied to one row: sets `status`,
`updated_at = NOW()`, and the optional extra fields when present. -/
def applyUpdate (t : TransactionRecord) (status : TransactionStatus)
    (extra : UpdateExtraFields) (now : Nat) : TransactionRecord :=
  { t with
    status := status
    updatedAt := now
    pspTransactionId := extra.pspTransactionId.orElse (fun _ => t.pspTransactionId)
    finalAmount := extra.finalAmount.orElse (fun _ => t.finalAmount) }

/-- `UPDATE transactions SET ... WHERE id = $1` over the whole store. -/
def storeUpdateStatus (store : Store) (id : String) (status : TransactionStatus)
    (extra : UpdateExtraFields) (now : Nat) : Store :=
  store.map (fun t => if t.id == id then applyUpdate t status extra now else t)

/-- `updateStatus(transactionId, status, extraFields)` of the in-memory
repository: fails when the id is absent, else writes through and returns the
updated record. -/
def updateStatusE (store : Store) (id : String) (status : TransactionStatus)
    (extra : UpdateExtraFields) (now : Nat) :
    Except String (TransactionRecord × Store) :=
  match findById store id with
  | none => .error ("Transaction not found: " ++ id)
  | some t => .ok (applyUpdate t status extra now, storeUpdateStatus store id status extra now)

/-- The fresh record built by `create`: `pspTransactionId` and `finalAmount`
start `NULL`, timestamps start at `now`. -/
def mkRecord (d : CreateTransactionData) (now : Nat) : TransactionRecord :=
  { id := d.id, orderId := d.orderId, amount := d.amount, currency := d.currency
    cardNumber := d.cardNumber, status := d.status
    pspTransactionId := none, finalAmount := none
    createdAt := now, updatedAt := now }

/-- `create` of the in-memory repository: `Map.set` semantics — an existing
entry with the same id is silently replaced, a fresh id is appended. -/
def inMemoryCreate (store : Store) (d : CreateTransactionData) (now : Nat) :
    TransactionRecord × Store :=
  let record := mkRecord d now
  if hasId store d.id then
    (record, store.map (fun t => if t.id == d.id then record else t))
  else
    (record, store ++ [record])

/-- `create` of the PostgreSQL repository: `INSERT` against the
`id UUID PRIMARY KEY` constraint of the migration, so a duplicate id raises
a unique-violation error and leaves the table unchanged. -/
def pgCreate (store : Store) (d : CreateTransactionData) (now : Nat) :
    Except String (TransactionRecord × Store) :=
  if hasId store d.id then
    .error "duplicate key value violates unique constraint"
  else
    .ok (mkRecord d now, store ++ [mkRecord d now])

/-! ## Locked handle (`findAndLockByPspTransactionId`)

The PostgreSQL repository opens a database transaction (`BEGIN`), locks the
row (`SELECT ... FOR UPDATE`), and hands back scoped `updateStatus`,
`commit` and `rollback` closures. We embed the database transaction as a
pair of stores: `base` is what the table shows if the handle rolls back,
`tentative` is the in-transaction view that `commit` publishes. -/

structure LockedCtx where
  base : Store
  tentative : Store
  txn : Option TransactionRecord
deriving Repr

/-- `findAndLockByPspTransactionId(pspTransactionId)` of the PostgreSQL
repository: snapshot the store and look up the row to lock. -/
def findAndLock (store : Store) (pspId : String) : LockedCtx :=
  { base := store, tentative := store, txn := findByPspId store pspId }

/-- The handle's scoped `updateStatus(status, extraFields)`: fails when no
row was found, else runs the `UPDATE` against the in-transaction view. -/
def ctxUpdateStatus (ctx : LockedCtx) (status : TransactionStatus)
    (extra : UpdateExtraFields) (now : Nat) :
    Except String (TransactionRecord × LockedCtx) :=
  match ctx.txn with
  | none => .error "Cannot update: transaction not found"
  | some txn =>
      .ok (applyUpdate txn status extra now,
           { ctx with tentative := storeUpdateStatus ctx.tentative txn.id status extra now })

/-- The handle's `commit()`: the in-transaction view becomes visible. -/
def ctxCommit (ctx : LockedCtx) : Store := ctx.tentative

/-- The handle's `rollback()`: the tentative writes are discarded and the
table shows the pre-acquisition state. -/
def ctxRollback (ctx : LockedCtx) : Store := ctx.base

/-- The in-memory repository's `findAndLockByPspTransactionId`: the handle's
`updateStatus` writes straight through to the shared `Map` and both
`commit()` and `rollback()` are no-ops, so the visible store after either is
whatever the write left behind. Returns (visible store after the handle's
update followed by `rollback()`, the found row). -/
def inMemoryUpdateThenRollback (store : Store) (pspId : String)
    (status : TransactionStatus) (extra : UpdateExtraFields) (now : Nat) :
    Except String Store :=
  match findByPspId store pspId with
  | none => .error "Cannot update: transaction not found"
  | some txn => .ok (storeUpdateStatus store txn.id status extra now)

/-! ## Webhook coordinator (`src/services/webhookService.ts`) -/

/-- `PSP_STATUS_MAP`: PSP status vocabulary → internal status. -/
def pspStatusMap : String → Option TransactionStatus
  | "SUCCESS" => some .SUCCESS
  | "FAILED" => some .FAILED
  | _ => none

/-- `WebhookPayload` from `src/types/transaction.ts`. -/
structure WebhookPayload where
  transactionId : String
  final_amount : Nat
  status : String
deriving DecidableEq, Repr

/-- `WebhookResult` from `src/types/transaction.ts`. -/
structure WebhookResult where
  id : String
  status : TransactionStatus
  finalAmount : Option Nat := none
  message : Option String := none
deriving DecidableEq, Repr

/-- `WebhookError(message, statusCode)`. -/
structure WebhookError where
  message : String
  statusCode : Nat
deriving DecidableEq, Repr

/-- How a `processWebhook` call ends: a returned `WebhookResult`, a thrown
`WebhookError`, or a rethrown repository exception. -/
inductive WhOutcome where
  | ok (r : WebhookResult)
  | err (e : WebhookError)
  | repoErr (msg : String)
deriving DecidableEq, Repr

/-- A `commit()` or `rollback()` invocation on the locked handle. -/
inductive LockEvent where
  | commit
  | rollback
deriving DecidableEq, Repr

/-- `WebhookService.processWebhook(payload)`.

Returns the outcome, the store visible once the call has returned or
thrown, and the list of `commit`/`rollback` invocations on the locked
handle, in order. `updateThrows` injects a repository exception at the
handle's `updateStatus` call (the only repository call between acquisition
and commit), modelling a mid-flight storage failure; the service's outer
`catch` rolls back on such a non-`WebhookError` exception. -/
def processWebhook (store : Store) (payload : WebhookPayload) (now : Nat)
    (updateThrows : Bool) : WhOutcome × Store × List LockEvent :=
  match pspStatusMap payload.status with
  | none =>
      (.err { message := "Unknown PSP status: " ++ payload.status, statusCode := 400 },
       store, [])
  | some newStatus =>
    let ctx := findAndLock store payload.transactionId
    match ctx.txn with
    | none =>
        (.err { message := "Transaction not found for PSP ID: " ++ payload.transactionId,
                statusCode := 404 },
         ctxRollback ctx, [.rollback])
    | some txn =>
      if isTerminalStatus txn.status && txn.status == newStatus then
        (.ok { id := txn.id, status := txn.status,
               message := some "Duplicate webhook ignored" },
         ctxCommit ctx, [.commit])
      else if !(canTransition txn.status newStatus) then
        (.err { message := "Invalid transition for transaction " ++ txn.id ++ ": " ++
                  invalidTransitionMsg txn.status newStatus,
                statusCode := 409 },
         ctxRollback ctx, [.rollback])
      else if updateThrows then
        (.repoErr "repository failure during updateStatus", ctxRollback ctx, [.rollback])
      else
        match ctxUpdateStatus ctx newStatus { finalAmount := some payload.final_amount } now with
        | .error m => (.repoErr m, ctxRollback ctx, [.rollback])
        | .ok (updated, ctx2) =>
            (.ok { id := updated.id, status := updated.status,
                   finalAmount := updated.finalAmount },
             ctxCommit ctx2, [.commit])

/-! ## Outbound PSP client (`TransactionService.callPsp` / `isRetryable`)

One `fetch` attempt either resolves to an `ok` response, throws a
`TypeError` (connection failure), or resolves to a non-ok HTTP response,
which `callPsp` turns into a thrown `Error` whose message embeds the status
code and response body. The sequence of attempt results is an oracle
indexed by the 1-based attempt number. -/

/-- `PspResponse` from `src/types/transaction.ts`. -/
structure PspResponse where
  transactionId : String
  status : String
  threeDsRedirectUrl : Option String := none
deriving DecidableEq, Repr

/-- Result of one `fetch` to the PSP `/transactions` endpoint. -/
inductive AttemptResult where
  | ok (r : PspResponse)
  | networkError (msg : String)
  | httpError (status : Nat) (body : String)
deriving DecidableEq, Repr

/-- The message of the `Error` thrown on a non-ok HTTP response. -/
def httpErrorMsg (status : Nat) (body : String) : String :=
  "PSP request failed with status " ++ toString status ++ ": " ++ body

/-- The message of the error a failed attempt throws. -/
def errMessage : AttemptResult → String
  | .ok _ => ""
  | .networkError m => m
  | .httpError st body => httpErrorMsg st body

/-- JavaScript `String.prototype.includes`: substring containment. -/
def listContainsSub (pat : List Char) : List Char → Bool
  | [] => pat.isEmpty
  | c :: rest => pat.isPrefixOf (c :: rest) || listContainsSub pat rest

/-- `message.includes(pattern)` on Lean strings. -/
def strContains (s pat : String) : Bool :=
  listContainsSub pat.toList s.toList

/-- `TransactionService.isRetryable(error)`: `TypeError`s (network errors)
are retryable, and so is any `Error` whose message contains the text
`"status 5"`. -/
def isRetryableErr : AttemptResult → Bool
  | .ok _ => false
  | .networkError _ => true
  | .httpError st body => strContains (httpErrorMsg st body) "status 5"

/-- Whether an attempt result is a thrown error (not a resolved response). -/
def isFailureAttempt : AttemptResult → Bool
  | .ok _ => false
  | .networkError _ => true
  | .httpError _ _ => true

/-- The message thrown after the retry budget is exhausted. -/
def exhaustedMsg (n : Nat) (lastMsg : String) : String :=
  "PSP request failed after " ++ toString n ++ " attempts: " ++ lastMsg

/-- Observable trace of one `callPsp` call: the final outcome, how many
`fetch` attempts were made, and each backoff sleep in milliseconds, in
order. -/
structure CallPspTrace where
  result : Except String PspResponse
  attemptsMade : Nat
  sleeps : List Nat
deriving Repr

/-- The body of `callPsp`'s `for` loop; `remaining` counts the loop
iterations left (`retryAttempts - attempt + 1`), `lastMsg` is
`lastError?.message`. -/
def callPspAux (oracle : Nat → AttemptResult) (n b : Nat) :
    Nat → Nat → String → List Nat → Nat → CallPspTrace
  | _, 0, lastMsg, sleeps, made => ⟨.error (exhaustedMsg n lastMsg), made, sleeps⟩
  | attempt, r + 1, _, sleeps, made =>
    match oracle attempt with
    | .ok resp => ⟨.ok resp, made + 1, sleeps⟩
    | e =>
      if !(isRetryableErr e) then ⟨.error (errMessage e), made + 1, sleeps⟩
      else if attempt < n then
        callPspAux oracle n b (attempt + 1) r (errMessage e)
          (sleeps ++ [b * 2 ^ (attempt - 1)]) (made + 1)
      else
        callPspAux oracle n b (attempt + 1) r (errMessage e) sleeps (made + 1)

/-- `TransactionService.callPsp(payload)` with `retryAttempts = n` and
`retryDelayMs = b`; a never-assigned `lastError` prints as `undefined`. -/
def callPsp (oracle : Nat → AttemptResult) (n b : Nat) : CallPspTrace :=
  callPspAux oracle n b 1 n "undefined" [] 0

/-- The exponential backoff schedule `[b * 2 ^ 0, ..., b * 2 ^ (k - 1)]`. -/
def backoffDelays (b k : Nat) : List Nat :=
  (List.range k).map (fun i => b * 2 ^ i)

/-! ## Transaction creation (`TransactionService.createTransaction`) -/

/-- `CreateTransactionPayload` from `src/types/transaction.ts`. -/
structure CreateTransactionPayload where
  amount : Nat
  currency : String
  cardNumber : String
  cardExpiry : String
  cvv : String
  orderId : String
  callbackUrl : Option String := none
deriving DecidableEq, Repr

/-- `CreateTransactionResponse` from `src/types/transaction.ts`. -/
structure CreateTransactionResponse where
  id : String
  orderId : String
  amount : Nat
  currency : String
  status : TransactionStatus
  pspTransactionId : String
  threeDsRedirectUrl : Option String := none
deriving DecidableEq, Repr

/-- The `statusMapping` table of `createTransaction`. -/
def statusMapping : String → Option TransactionStatus
  | "SUCCESS" => some .SUCCESS
  | "FAILED" => some .FAILED
  | "3DS_REQUIRED" => some .PENDING_3DS
  | _ => none

/-- The `(id, pspTransactionId)` projection of the store, for stating that
an operation never touches any row's PSP identifier. -/
def projPsp (store : Store) : List (String × Option String) :=
  store.map (fun t => (t.id, t.pspTransactionId))

/-- `TransactionService.createTransaction(payload)`.

`genId` stands for the generated `uuidv4()`; `pspResult` is the outcome of
`callPsp` (`none` embeds a thrown delegate error, which propagates after the
`create`). The repository is the interface both implementations share; we
compose with the in-memory `create`/`updateStatus` semantics, which agree
with the PostgreSQL ones whenever `genId` is fresh. Returns the outcome and
the store after the call. -/
def createTransaction (store : Store) (p : CreateTransactionPayload)
    (genId : String) (pspResult : Option PspResponse) (now : Nat) :
    (Except String CreateTransactionResponse) × Store :=
  let created := inMemoryCreate store
    { id := genId, orderId := p.orderId, amount := p.amount, currency := p.currency
      cardNumber := p.cardNumber, status := .CREATED } now
  let txn := created.1
  let store1 := created.2
  match pspResult with
  | none => (.error "PSP request failed", store1)
  | some resp =>
    match statusMapping resp.status with
    | none => (.error ("Unknown PSP status: " ++ resp.status), store1)
    | some newStatus =>
      match assertTransition txn.status newStatus with
      | .error m => (.error m, store1)
      | .ok _ =>
        match updateStatusE store1 genId newStatus
            { pspTransactionId := some resp.transactionId } now with
        | .error m => (.error m, store1)
        | .ok (txn2, store2) =>
            (.ok { id := txn2.id, orderId := txn2.orderId, amount := txn2.amount
                   currency := txn2.currency, status := txn2.status
                   pspTransactionId := txn2.pspTransactionId.getD ""
                   threeDsRedirectUrl := resp.threeDsRedirectUrl },
             store2)

/-! ## PSP simulator (`src/psp-simulator/pspService.ts`)

The pending-3DS registry, its expiry timers and the webhook deliveries are
embedded as a state acted on by three kinds of events. An armed timer is
kept with the callback url and amount its `setTimeout` closure captured; a
`fire` event is the closure of that timer running (so it is a no-op unless
that exact timer is armed), and firing disarms the timer. Node's event loop
runs each callback to completion, so each event is one atomic step. -/

/-- `CARD_PREFIX_RULES`. -/
def CARD_PREFIX_RULES : List (String × String) :=
  [("4111", "3DS_REQUIRED"), ("5555", "SUCCESS"), ("4000", "FAILED")]

/-- `DEFAULT_PSP_STATUS`. -/
def DEFAULT_PSP_STATUS : String := "FAILED"

/-- JavaScript `String.prototype.startsWith`. -/
def strStartsWith (s pre : String) : Bool :=
  pre.toList.isPrefixOf s.toList

/-- The first-matching-rule loop of `determineOutcome`. -/
def firstRuleMatch (cardNumber : String) : List (String × String) → String
  | [] => DEFAULT_PSP_STATUS
  | (pre, status) :: rest =>
      if strStartsWith cardNumber pre then status else firstRuleMatch cardNumber rest

/-- `determineOutcome(cardNumber)`. -/
def determineOutcome (cardNumber : String) : String :=
  firstRuleMatch cardNumber CARD_PREFIX_RULES

/-- The simulator's mutable state: `pending3dsTransactions` (key, callback
url, amount), the armed expiry timers with their captured closure
arguments, the log of webhook deliveries `(transactionId, final_amount,
status)` in reverse chronological order, and the set of PSP transaction
ids ever issued (uuid generation never repeats an id, which we record
explicitly to guard `register`). -/
structure SimState where
  pending : List (String × String × Nat)
  armed : List (String × String × Nat)
  sent : List (String × Nat × String)
  used : List String
deriving DecidableEq, Repr

/-- `Map.get`-style association lookup by PSP transaction id. -/
def alookup (id : String) : List (String × String × Nat) → Option (String × Nat)
  | [] => none
  | (k, v) :: rest => if k = id then some v else alookup id rest

/-- `Map.delete` by PSP transaction id (ids are unique in both maps). -/
def aerase (id : String) (l : List (String × String × Nat)) :
    List (String × String × Nat) :=
  l.filter (fun e => e.1 ≠ id)

/-- The empty initial simulator state. -/
def initialSimState : SimState := ⟨[], [], [], []⟩

/-- The registration performed by `processTransaction` on a `3DS_REQUIRED`
outcome: store the pending transaction and start its expiry timer
(`startExpiryTimer`). The `used` guard embeds uuid freshness of generated
ids. -/
def register3ds (s : SimState) (id cb : String) (amt : Nat) : SimState :=
  if id ∈ s.used then s
  else
    { pending := (id, cb, amt) :: s.pending
      armed := (id, cb, amt) :: s.armed
      sent := s.sent
      used := id :: s.used }

/-- The expiry timer's `setTimeout` callback for captured arguments
`(id, cb, amt)` running: only possible while that timer is armed, and
firing disarms it; the body checks `pending3dsTransactions.has(id)` and
either cleans up and delivers the `FAILED` webhook or no-ops. -/
def fireExpiry (s : SimState) (id cb : String) (amt : Nat) : SimState :=
  if (id, cb, amt) ∈ s.armed then
    if (alookup id s.pending).isSome then
      { pending := aerase id s.pending
        armed := aerase id s.armed
        sent := (id, amt, "FAILED") :: s.sent
        used := s.used }
    else { s with armed := aerase id s.armed }
  else s

/-- `resolve3dsTransaction(pspTransactionId)`: on a pending entry, remove
it, cancel its expiry timer (`cancelExpiryTimer`) and deliver the delayed
`SUCCESS` webhook with the stored amount; else report not found. -/
def resolve3ds (s : SimState) (id : String) : Bool × SimState :=
  match alookup id s.pending with
  | none => (false, s)
  | some (_cb, amt) =>
      (true,
       { pending := aerase id s.pending
         armed := aerase id s.armed
         sent := (id, amt, "SUCCESS") :: s.sent
         used := s.used })

/-- The concurrent happenings the registry is subject to. -/
inductive SimEvent where
  | register (id cb : String) (amt : Nat)
  | fire (id cb : String) (amt : Nat)
  | resolve (id : String)
deriving DecidableEq, Repr

/-- One atomic step of the simulator. -/
def simStep (s : SimState) : SimEvent → SimState
  | .register id cb amt => register3ds s id cb amt
  | .fire id cb amt => fireExpiry s id cb amt
  | .resolve id => (resolve3ds s id).2

/-- Run a sequence of events. -/
def simRun (s : SimState) : List SimEvent → SimState
  | [] => s
  | e :: es => simRun (simStep s e) es

/-- All webhook deliveries for one PSP transaction id. -/
def sentFor (id : String) (s : SimState) : List (String × Nat × String) :=
  s.sent.filter (fun x => x.1 = id)

/-- `processTransaction(request)`: returns
`(transactionId, status, threeDsRedirectUrl?)` and the new simulator state;
direct outcomes deliver their webhook immediately (`setImmediate`), the
`3DS_REQUIRED` outcome registers the pending challenge. `txId` stands for
the generated `tx_<uuid>` identifier. -/
def processTransaction (s : SimState) (txId cb : String) (amount : Nat)
    (cardNumber : String) (pspBaseUrl : String) :
    (String × String × Option String) × SimState :=
  let outcome := determineOutcome cardNumber
  if outcome = "SUCCESS" || outcome = "FAILED" then
    ((txId, outcome, none), { s with sent := (txId, amount, outcome) :: s.sent })
  else
    ((txId, outcome, some (pspBaseUrl ++ "/3ds/" ++ txId)),
     register3ds s txId cb amount)

/-! ## Phase predicates for the expiry-timer race

The life of one registered challenge `(id, cb, amt)`: `PhaseLive` between
registration and destruction, `PhaseDone out` once exactly one destruction
path has delivered the notifications `out`. -/

/-- Registered, still pending, timer armed, nothing delivered for `id`. -/
def PhaseLive (id cb : String) (amt : Nat) (s : SimState) : Prop :=
  (∀ v, (id, v) ∈ s.pending ↔ v = (cb, amt)) ∧
  (∀ v, (id, v) ∈ s.armed ↔ v = (cb, amt)) ∧
  id ∈ s.used ∧ sentFor id s = []

/-- Destroyed: no pending entry, no armed timer, deliveries for `id` are
exactly `out`, and `id` can never be registered again. -/
def PhaseDone (id : String) (out : List (String × Nat × String)) (s : SimState) : Prop :=
  (∀ v, (id, v) ∉ s.pending) ∧
  (∀ v, (id, v) ∉ s.armed) ∧
  id ∈ s.used ∧ sentFor id s = out

/-! ## Sample data for concrete witnesses -/

/-- A sample stored transaction row. -/
def sampleTx (status : TransactionStatus) (psp : Option String)
    (fin : Option Nat) : TransactionRecord :=
  { id := "11111111-1111-1111-1111-111111111111", orderId := "order-1"
    amount := 1000, currency := "EUR", cardNumber := "5555111111111111"
    status := status, pspTransactionId := psp, finalAmount := fin
    createdAt := 0, updatedAt := 0 }

/-- A sample creation payload. -/
def samplePayload : CreateTransactionPayload :=
  { amount := 1000, currency := "EUR", cardNumber := "5555111111111111"
    cardExpiry := "12/30", cvv := "123", orderId := "order-1" }

/-- A sample PSP response. -/
def sampleResp : PspResponse := { transactionId := "tx_ok", status := "SUCCESS" }

/-- A delegate whose first attempt is an HTTP 400 (client-class) response
whose body happens to contain the text `status 5`, and that succeeds from
the second attempt on. -/
def bodyTrapOracle : Nat → AttemptResult := fun k =>
  if k = 1 then .httpError 400 "status 503 from upstream" else .ok sampleResp

/-- A delegate failing with HTTP 503 on the first two attempts and
succeeding on the third. -/
def twoFailOracle : Nat → AttemptResult := fun k =>
  if k ≤ 2 then .httpError 503 "Service Unavailable" else .ok sampleResp

/-!
# Theorems
-/

/-! ## Helper lemmas about the state machine -/

theorem terminal_no_outgoing (a b : TransactionStatus)
    (h : isTerminalStatus a = true) : canTransition a b = false := by
  cases a <;> simp [isTerminalStatus] at h <;> cases b <;> rfl

/-! ## C3: the transition table -/

/-- C3: `canTransition` returns true exactly on the pairs of the transition
table — `CREATED → PENDING_3DS | SUCCESS | FAILED` and
`PENDING_3DS → SUCCESS | FAILED` — and false on every other pair, including
every self-transition and every pair whose source is a terminal status; and
`isTerminalStatus` holds exactly for `SUCCESS` and `FAILED`. -/
theorem claim_C3_transition_table :
    (∀ f t : TransactionStatus,
      canTransition f t =
        ((f == .CREATED) && ((t == .PENDING_3DS) || (t == .SUCCESS) || (t == .FAILED)) ||
         (f == .PENDING_3DS) && ((t == .SUCCESS) || (t == .FAILED)))) ∧
    (∀ t : TransactionStatus, canTransition .SUCCESS t = false) ∧
    (∀ t : TransactionStatus, canTransition .FAILED t = false) ∧
    (∀ f : TransactionStatus, canTransition f f = false) ∧
    (∀ s : TransactionStatus, isTerminalStatus s = ((s == .SUCCESS) || (s == .FAILED))) := by
  refine ⟨?_, ?_, ?_, ?_, ?_⟩ <;> decide

/-! ## C1: idempotent duplicate of the same terminal status -/

/-- C1: a webhook whose mapped status equals the transaction's current
status, the current status being terminal, makes `processWebhook` commit
with no write, return the duplicate-marked result with the existing status,
and leave the stored transaction (final amount included) exactly as the
first accepted terminal write stored it. -/
theorem claim_C1_duplicate_ignored (store : Store) (payload : WebhookPayload)
    (now : Nat) (updateThrows : Bool) (s : TransactionStatus)
    (txn : TransactionRecord)
    (hmap : pspStatusMap payload.status = some s)
    (hfind : findByPspId store payload.transactionId = some txn)
    (heq : txn.status = s)
    (hterm : isTerminalStatus txn.status = true) :
    processWebhook store payload now updateThrows =
      (.ok { id := txn.id, status := txn.status,
             message := some "Duplicate webhook ignored" },
       store, [.commit]) := by
  subst heq
  simp [processWebhook, hmap, findAndLock, hfind, hterm, ctxCommit]

/-- Witness for C1: a transaction already `SUCCESS` with final amount 1000
receives a second `SUCCESS` webhook; the call commits, reports the
duplicate, and the store is untouched. -/
theorem claim_C1_duplicate_ignored_witness :
    pspStatusMap "SUCCESS" = some .SUCCESS ∧
    processWebhook [sampleTx .SUCCESS (some "tx_1") (some 1000)]
        { transactionId := "tx_1", final_amount := 1000, status := "SUCCESS" } 5 false =
      (.ok { id := (sampleTx .SUCCESS (some "tx_1") (some 1000)).id,
             status := .SUCCESS, message := some "Duplicate webhook ignored" },
       [sampleTx .SUCCESS (some "tx_1") (some 1000)], [.commit]) :=
  ⟨rfl,
   claim_C1_duplicate_ignored _ _ 5 false .SUCCESS _ rfl (by decide) rfl rfl⟩

/-! ## C2: conflicting terminal notification -/

/-- C2: a webhook carrying a terminal status different from the
transaction's current terminal status makes `processWebhook` roll back and
throw a 409 conflict error (not the duplicate result), leaving the stored
transaction's status and final amount unchanged. -/
theorem claim_C2_conflict_rejected (store : Store) (payload : WebhookPayload)
    (now : Nat) (updateThrows : Bool) (s : TransactionStatus)
    (txn : TransactionRecord)
    (hmap : pspStatusMap payload.status = some s)
    (hfind : findByPspId store payload.transactionId = some txn)
    (hterm : isTerminalStatus txn.status = true)
    (hne : txn.status ≠ s) :
    processWebhook store payload now updateThrows =
      (.err { message := "Invalid transition for transaction " ++ txn.id ++ ": " ++
                invalidTransitionMsg txn.status s,
              statusCode := 409 },
       store, [.rollback]) := by
  have hcant : canTransition txn.status s = false := terminal_no_outgoing _ _ hterm
  simp [processWebhook, hmap, findAndLock, hfind, hterm, hcant, hne, ctxRollback]

/-- Witness for C2: a transaction already `SUCCESS` receives a `FAILED`
webhook; the call rolls back with a 409 error and the store keeps the
`SUCCESS` row with its final amount. -/
theorem claim_C2_conflict_rejected_witness :
    isTerminalStatus .SUCCESS = true ∧
    processWebhook [sampleTx .SUCCESS (some "tx_1") (some 1000)]
        { transactionId := "tx_1", final_amount := 77, status := "FAILED" } 5 false =
      (.err { message := "Invalid transition for transaction " ++
                (sampleTx .SUCCESS (some "tx_1") (some 1000)).id ++ ": " ++
                invalidTransitionMsg .SUCCESS .FAILED,
              statusCode := 409 },
       [sampleTx .SUCCESS (some "tx_1") (some 1000)], [.rollback]) :=
  ⟨rfl,
   claim_C2_conflict_rejected _ _ 5 false .FAILED _ rfl (by decide) rfl (by decide)⟩

/-! ## C7: commit or rollback exactly once -/

/-- C7: whenever the locked handle is acquired (the reported status mapped,
so `processWebhook` reaches `findAndLockByPspTransactionId`), every outcome
— duplicate, not-found, conflict, injected repository failure, or normal
update — invokes exactly one of `commit()` / `rollback()` on the handle,
exactly once. -/
theorem claim_C7_scoped_release (store : Store) (payload : WebhookPayload)
    (now : Nat) (updateThrows : Bool) (s : TransactionStatus)
    (hmap : pspStatusMap payload.status = some s) :
    (processWebhook store payload now updateThrows).2.2 = [LockEvent.commit] ∨
    (processWebhook store payload now updateThrows).2.2 = [LockEvent.rollback] := by
  simp only [processWebhook, hmap]
  cases hf : findByPspId store payload.transactionId with
  | none => simp [findAndLock, hf]
  | some txn =>
    simp only [findAndLock, hf]
    split
    · exact Or.inl rfl
    · split
      · exact Or.inr rfl
      · split
        · exact Or.inr rfl
        · simp [ctxUpdateStatus]

/-- Witness for C7: the normal-update outcome (a `SUCCESS` webhook for a
`PENDING_3DS` transaction) commits exactly once. -/
theorem claim_C7_scoped_release_witness :
    pspStatusMap "SUCCESS" = some .SUCCESS ∧
    ((processWebhook [sampleTx .PENDING_3DS (some "tx_1") none]
        { transactionId := "tx_1", final_amount := 900, status := "SUCCESS" }
        3 false).2.2 = [LockEvent.commit] ∨
     (processWebhook [sampleTx .PENDING_3DS (some "tx_1") none]
        { transactionId := "tx_1", final_amount := 900, status := "SUCCESS" }
        3 false).2.2 = [LockEvent.rollback]) :=
  ⟨rfl, claim_C7_scoped_release _ _ 3 false .SUCCESS rfl⟩

/-! ## C6: rollback discards the tentative write -/

/-- Counterexample for C6: for the in-memory repository's
`findAndLockByPspTransactionId` handle, `updateStatus` writes straight
through to the shared map and `rollback()` is a no-op, so after rollback
the stored transaction is the updated row, not the pre-acquisition one. -/
theorem claim_C6_counterexample :
    inMemoryUpdateThenRollback [sampleTx .PENDING_3DS (some "tx_1") none] "tx_1"
        .SUCCESS { finalAmount := some 1000 } 7 =
      .ok [{ sampleTx .SUCCESS (some "tx_1") (some 1000) with updatedAt := 7 }] ∧
    [{ sampleTx .SUCCESS (some "tx_1") (some 1000) with updatedAt := 7 }] ≠
      [sampleTx .PENDING_3DS (some "tx_1") none] :=
  ⟨rfl, by decide⟩

/-- C6 amended: for every locked handle returned by the
PostgreSQL-backed `findAndLockByPspTransactionId` — where the handle's
writes run inside the opened database transaction — `rollback()` after
`updateStatus` discards the tentative write entirely: the store visible
after rollback is exactly the one visible before the handle was acquired.
(The in-memory test repository's no-op rollback does not have this
property; see the counterexample.) -/
theorem claim_C6_rollback_discards (store : Store) (pspId : String)
    (status : TransactionStatus) (extra : UpdateExtraFields) (now : Nat)
    (upd : TransactionRecord) (ctx2 : LockedCtx)
    (h : ctxUpdateStatus (findAndLock store pspId) status extra now = .ok (upd, ctx2)) :
    ctxRollback ctx2 = store := by
  simp only [ctxUpdateStatus, findAndLock] at h
  cases hf : findByPspId store pspId with
  | none => rw [hf] at h; simp at h
  | some txn =>
    rw [hf] at h
    injection h with h'
    have h2 := congrArg Prod.snd h'
    subst h2
    rfl

/-- Witness for C6: a concrete locked update whose rollback restores the
original store. -/
theorem claim_C6_rollback_discards_witness :
    ctxUpdateStatus (findAndLock [sampleTx .PENDING_3DS (some "tx_1") none] "tx_1")
        .SUCCESS { finalAmount := some 1000 } 7 =
      .ok ({ sampleTx .SUCCESS (some "tx_1") (some 1000) with updatedAt := 7 },
           { base := [sampleTx .PENDING_3DS (some "tx_1") none]
             tentative := [{ sampleTx .SUCCESS (some "tx_1") (some 1000) with updatedAt := 7 }]
             txn := some (sampleTx .PENDING_3DS (some "tx_1") none) }) ∧
    ctxRollback
        { base := [sampleTx .PENDING_3DS (some "tx_1") none]
          tentative := [{ sampleTx .SUCCESS (some "tx_1") (some 1000) with updatedAt := 7 }]
          txn := some (sampleTx .PENDING_3DS (some "tx_1") none) } =
      [sampleTx .PENDING_3DS (some "tx_1") none] :=
  ⟨rfl,
   claim_C6_rollback_discards [sampleTx .PENDING_3DS (some "tx_1") none] "tx_1"
     .SUCCESS { finalAmount := some 1000 } 7
     { sampleTx .SUCCESS (some "tx_1") (some 1000) with updatedAt := 7 }
     { base := [sampleTx .PENDING_3DS (some "tx_1") none]
       tentative := [{ sampleTx .SUCCESS (some "tx_1") (some 1000) with updatedAt := 7 }]
       txn := some (sampleTx .PENDING_3DS (some "tx_1") none) }
     rfl⟩

/-! ## C8: duplicate internal id on create -/

/-- Counterexample for C8: the in-memory repository's `create` with an id
that already exists does not fail — it silently replaces the previously
stored record. -/
theorem claim_C8_counterexample :
    (inMemoryCreate [sampleTx .SUCCESS (some "tx_1") (some 1000)]
        { id := (sampleTx .SUCCESS (some "tx_1") (some 1000)).id
          orderId := "order-2", amount := 5, currency := "USD"
          cardNumber := "4000000000000000", status := .CREATED } 9).2 =
      [mkRecord
        { id := (sampleTx .SUCCESS (some "tx_1") (some 1000)).id
          orderId := "order-2", amount := 5, currency := "USD"
          cardNumber := "4000000000000000", status := .CREATED } 9] ∧
    [mkRecord
        { id := (sampleTx .SUCCESS (some "tx_1") (some 1000)).id
          orderId := "order-2", amount := 5, currency := "USD"
          cardNumber := "4000000000000000", status := .CREATED } 9] ≠
      [sampleTx .SUCCESS (some "tx_1") (some 1000)] :=
  ⟨rfl, by decide⟩

/-- C8 amended: the PostgreSQL-backed `create` fails with the primary-key
unique-violation error when the internal id already exists (a defined
error, the previously stored row unchanged — a failed `INSERT` writes
nothing) and inserts and returns the new record for a fresh id; the
in-memory repository's `create`, however, silently overwrites an existing
record with the same id, and appends the new record for a fresh id. -/
theorem claim_C8_create_duplicate (store : Store) (d : CreateTransactionData)
    (now : Nat) :
    (hasId store d.id = true →
      pgCreate store d now = .error "duplicate key value violates unique constraint") ∧
    (hasId store d.id = false →
      pgCreate store d now = .ok (mkRecord d now, store ++ [mkRecord d now])) ∧
    (hasId store d.id = false →
      inMemoryCreate store d now = (mkRecord d now, store ++ [mkRecord d now])) ∧
    (hasId store d.id = true →
      inMemoryCreate store d now =
        (mkRecord d now, store.map (fun t => if t.id == d.id then mkRecord d now else t))) := by
  refine ⟨fun h => ?_, fun h => ?_, fun h => ?_, fun h => ?_⟩ <;>
    simp [pgCreate, inMemoryCreate, h]

/-- Witness for C8: a duplicate id makes the PostgreSQL `create` fail with
the unique-violation error. -/
theorem claim_C8_create_duplicate_witness :
    hasId [sampleTx .SUCCESS (some "tx_1") (some 1000)]
      "11111111-1111-1111-1111-111111111111" = true ∧
    pgCreate [sampleTx .SUCCESS (some "tx_1") (some 1000)]
        { id := "11111111-1111-1111-1111-111111111111", orderId := "order-2"
          amount := 5, currency := "USD", cardNumber := "4000000000000000"
          status := .CREATED } 9 =
      .error "duplicate key value violates unique constraint" :=
  ⟨rfl,
   (claim_C8_create_duplicate [sampleTx .SUCCESS (some "tx_1") (some 1000)]
      { id := "11111111-1111-1111-1111-111111111111", orderId := "order-2"
        amount := 5, currency := "USD", cardNumber := "4000000000000000"
        status := .CREATED } 9).1 rfl⟩

/-! ## C10: card-number outcome rules -/

theorem isPrefixOf_self_append (l t : List Char) : l.isPrefixOf (l ++ t) = true := by
  rw [List.isPrefixOf_iff_prefix]
  exact List.prefix_append l t

/-- C10: a card number that starts with none of `4111`, `5555`, `4000`
falls through to the default `FAILED` outcome, so `processTransaction`
delivers an immediate `FAILED` webhook for it (it is neither rejected nor
left pending); and the three listed card-number beginnings produce
`3DS_REQUIRED`, `SUCCESS` and `FAILED` respectively, whatever the remaining
digits. -/
theorem claim_C10_card_outcomes :
    (∀ card : String,
      strStartsWith card "4111" = false → strStartsWith card "5555" = false →
      strStartsWith card "4000" = false → determineOutcome card = "FAILED") ∧
    (∀ rest : String, determineOutcome ("4111" ++ rest) = "3DS_REQUIRED") ∧
    (∀ rest : String, determineOutcome ("5555" ++ rest) = "SUCCESS") ∧
    (∀ rest : String, determineOutcome ("4000" ++ rest) = "FAILED") ∧
    (∀ (s : SimState) (txId cb : String) (amount : Nat) (card pspBaseUrl : String),
      strStartsWith card "4111" = false → strStartsWith card "5555" = false →
      strStartsWith card "4000" = false →
      processTransaction s txId cb amount card pspBaseUrl =
        ((txId, "FAILED", none), { s with sent := (txId, amount, "FAILED") :: s.sent })) := by
  have hdefault : ∀ card : String,
      strStartsWith card "4111" = false → strStartsWith card "5555" = false →
      strStartsWith card "4000" = false → determineOutcome card = "FAILED" := by
    intro card h1 h2 h3
    simp [determineOutcome, firstRuleMatch, CARD_PREFIX_RULES, h1, h2, h3,
      DEFAULT_PSP_STATUS]
  refine ⟨hdefault, ?_, ?_, ?_, ?_⟩
  · intro rest
    simp [determineOutcome, firstRuleMatch, CARD_PREFIX_RULES, strStartsWith,
      String.toList, String.data_append, isPrefixOf_self_append]
  · intro rest
    simp [determineOutcome, firstRuleMatch, CARD_PREFIX_RULES, strStartsWith,
      String.toList, String.data_append, List.isPrefixOf, isPrefixOf_self_append]
  · intro rest
    simp [determineOutcome, firstRuleMatch, CARD_PREFIX_RULES, strStartsWith,
      String.toList, String.data_append, List.isPrefixOf, isPrefixOf_self_append]
  · intro s txId cb amount card pspBaseUrl h1 h2 h3
    simp [processTransaction, hdefault card h1 h2 h3]

/-- Witness for C10: the card `9999000011112222` matches no rule and yields
the default `FAILED` outcome. -/
theorem claim_C10_card_outcomes_witness :
    strStartsWith "9999000011112222" "4111" = false ∧
    strStartsWith "9999000011112222" "5555" = false ∧
    strStartsWith "9999000011112222" "4000" = false ∧
    determineOutcome "9999000011112222" = "FAILED" :=
  ⟨rfl, rfl, rfl, claim_C10_card_outcomes.1 "9999000011112222" rfl rfl rfl⟩

/-! ## Helper lemmas about the store -/

theorem map_fresh_id (store : Store) (f : TransactionRecord → TransactionRecord)
    (id : String) (h : ∀ t ∈ store, t.id ≠ id) :
    store.map (fun t => if t.id == id then f t else t) = store := by
  have : ∀ t ∈ store, (if t.id == id then f t else t) = t := by
    intro t ht
    simp [beq_eq_false_iff_ne.mpr (h t ht)]
  rw [List.map_congr_left this]
  exact List.map_id' store

theorem hasId_false_of_fresh (store : Store) (id : String)
    (h : ∀ t ∈ store, t.id ≠ id) : hasId store id = false := by
  simp only [hasId, List.any_eq_false]
  intro t ht
  simp [beq_eq_false_iff_ne.mpr (h t ht)]

theorem findById_append_fresh (store : Store) (r : TransactionRecord)
    (h : ∀ t ∈ store, t.id ≠ r.id) : findById (store ++ [r]) r.id = some r := by
  have hnone : List.find? (fun t => t.id == r.id) store = none := by
    rw [List.find?_eq_none]
    intro t ht
    simp [beq_eq_false_iff_ne.mpr (h t ht)]
  simp [findById, List.find?_append, hnone]

theorem storeUpdateStatus_append_fresh (store : Store) (r : TransactionRecord)
    (st : TransactionStatus) (ex : UpdateExtraFields) (now : Nat)
    (h : ∀ t ∈ store, t.id ≠ r.id) :
    storeUpdateStatus (store ++ [r]) r.id st ex now =
      store ++ [applyUpdate r st ex now] := by
  rw [storeUpdateStatus, List.map_append]
  rw [map_fresh_id store _ _ h]
  simp

theorem projPsp_append (a b : Store) : projPsp (a ++ b) = projPsp a ++ projPsp b :=
  List.map_append _ a b

theorem projPsp_update_no_psp (store : Store) (id : String)
    (st : TransactionStatus) (fin : Option Nat) (now : Nat) :
    projPsp (storeUpdateStatus store id st { finalAmount := fin } now) =
      projPsp store := by
  simp only [projPsp, storeUpdateStatus, List.map_map]
  apply List.map_congr_left
  intro t _
  by_cases h : t.id = id
  · simp [h, applyUpdate]
  · simp [h]

theorem statusMapping_created_legal (str : String) (out : TransactionStatus)
    (h : statusMapping str = some out) : canTransition .CREATED out = true := by
  unfold statusMapping at h
  split at h <;> simp_all <;> subst h <;> decide

/-! ## C9: the PSP transaction id is assigned at most once -/

/-- C9: across the system's operations, a transaction's external-processor
identifier is written exactly once, by the creation flow's single
`updateStatus` call, and never changed afterwards: `processWebhook` leaves
every row's `pspTransactionId` untouched (its update carries only the
status and final amount), and `createTransaction` with a fresh generated id
leaves every existing row's `pspTransactionId` untouched while giving the
one new row a single value — on a mapped PSP response, the PSP's
transaction id, set from its initial `NULL`. -/
theorem claim_C9_psp_id_assigned_once :
    (∀ (store : Store) (payload : WebhookPayload) (now : Nat) (uT : Bool),
      projPsp (processWebhook store payload now uT).2.1 = projPsp store) ∧
    (∀ (store : Store) (p : CreateTransactionPayload) (genId : String)
        (psp : Option PspResponse) (now : Nat),
      (∀ t ∈ store, t.id ≠ genId) →
      ∃ v, projPsp (createTransaction store p genId psp now).2 =
        projPsp store ++ [(genId, v)]) ∧
    (∀ (store : Store) (p : CreateTransactionPayload) (genId : String)
        (resp : PspResponse) (now : Nat) (out : TransactionStatus),
      (∀ t ∈ store, t.id ≠ genId) →
      statusMapping resp.status = some out →
      projPsp (createTransaction store p genId (some resp) now).2 =
        projPsp store ++ [(genId, some resp.transactionId)]) := by
  have hA : ∀ (store : Store) (payload : WebhookPayload) (now : Nat) (uT : Bool),
      projPsp (processWebhook store payload now uT).2.1 = projPsp store := by
    intro store payload now uT
    cases hm : pspStatusMap payload.status with
    | none => simp [processWebhook, hm]
    | some s =>
      cases hf : findByPspId store payload.transactionId with
      | none => simp [processWebhook, hm, findAndLock, hf, ctxRollback]
      | some txn =>
        simp only [processWebhook, hm, findAndLock, hf]
        split
        · simp [ctxCommit]
        · split
          · simp [ctxRollback]
          · split
            · simp [ctxRollback]
            · simp [ctxUpdateStatus, ctxCommit, projPsp_update_no_psp]
  have hC : ∀ (store : Store) (p : CreateTransactionPayload) (genId : String)
      (resp : PspResponse) (now : Nat) (out : TransactionStatus),
      (∀ t ∈ store, t.id ≠ genId) →
      statusMapping resp.status = some out →
      projPsp (createTransaction store p genId (some resp) now).2 =
        projPsp store ++ [(genId, some resp.transactionId)] := by
    intro store p genId resp now out hfresh hmap
    have hd := hasId_false_of_fresh store genId hfresh
    have hcan := statusMapping_created_legal resp.status out hmap
    have hfind := findById_append_fresh store
      (mkRecord ⟨genId, p.orderId, p.amount, p.currency, p.cardNumber, .CREATED⟩ now) hfresh
    have hupd := storeUpdateStatus_append_fresh store
      (mkRecord ⟨genId, p.orderId, p.amount, p.currency, p.cardNumber, .CREATED⟩ now)
      out { pspTransactionId := some resp.transactionId } now hfresh
    simp only [mkRecord] at hfind hupd
    simp [createTransaction, inMemoryCreate, hd, hmap, assertTransition, hcan,
      updateStatusE, hfind, hupd, projPsp_append, projPsp, applyUpdate, mkRecord]
  refine ⟨hA, ?_, hC⟩
  intro store p genId psp now hfresh
  have hd := hasId_false_of_fresh store genId hfresh
  cases psp with
  | none =>
    exact ⟨none, by
      simp [createTransaction, inMemoryCreate, hd, projPsp_append, projPsp, mkRecord]⟩
  | some resp =>
    cases hm : statusMapping resp.status with
    | none =>
      exact ⟨none, by
        simp [createTransaction, inMemoryCreate, hd, hm, projPsp_append, projPsp, mkRecord]⟩
    | some out => exact ⟨some resp.transactionId, hC store p genId resp now out hfresh hm⟩

/-- Witness for C9: creating a transaction (fresh id `"id-2"`, PSP response
`tx_9`/`SUCCESS`) assigns the new row's PSP id once and leaves the existing
row's PSP id untouched. -/
theorem claim_C9_psp_id_assigned_once_witness :
    (∀ t ∈ [sampleTx .SUCCESS (some "tx_1") (some 1000)], t.id ≠ "id-2") ∧
    statusMapping "SUCCESS" = some .SUCCESS ∧
    projPsp (createTransaction [sampleTx .SUCCESS (some "tx_1") (some 1000)]
        samplePayload "id-2"
        (some { transactionId := "tx_9", status := "SUCCESS" }) 3).2 =
      projPsp [sampleTx .SUCCESS (some "tx_1") (some 1000)] ++
        [("id-2", some "tx_9")] :=
  ⟨by decide, rfl,
   claim_C9_psp_id_assigned_once.2.2 [sampleTx .SUCCESS (some "tx_1") (some 1000)]
     samplePayload "id-2" { transactionId := "tx_9", status := "SUCCESS" } 3 .SUCCESS
     (by decide) rfl⟩

/-! ## Helper lemmas about retry classification and the retry loop -/

theorem isPrefixOf_append_ext (pat l t : List Char) (h : pat.isPrefixOf l = true) :
    pat.isPrefixOf (l ++ t) = true := by
  rw [List.isPrefixOf_iff_prefix] at h ⊢
  exact h.trans (List.prefix_append l t)

theorem listContainsSub_append_left (pat l t : List Char)
    (h : listContainsSub pat l = true) : listContainsSub pat (l ++ t) = true := by
  induction l with
  | nil =>
    simp [listContainsSub] at h
    subst h
    cases t <;> simp [listContainsSub, List.isPrefixOf]
  | cons c rest ih =>
    simp only [listContainsSub, Bool.or_eq_true] at h
    rcases h with h | h
    · simp only [List.cons_append, listContainsSub, Bool.or_eq_true]
      exact Or.inl (isPrefixOf_append_ext _ _ _ h)
    · simp only [List.cons_append, listContainsSub, Bool.or_eq_true]
      exact Or.inr (ih h)

set_option maxRecDepth 4000 in
theorem retryable_5xx (st : Nat) (h1 : 500 ≤ st) (h2 : st < 600) (body : String) :
    isRetryableErr (.httpError st body) = true := by
  have hL : ∀ st, st < 600 → 500 ≤ st →
      listContainsSub "status 5".toList
        (("PSP request failed with status " ++ toString st ++ ": ").toList) = true := by
    decide
  simp only [isRetryableErr, strContains, httpErrorMsg]
  have hsplit : ("PSP request failed with status " ++ toString st ++ ": " ++ body).toList =
      ("PSP request failed with status " ++ toString st ++ ": ").toList ++ body.toList := by
    simp [String.toList, String.data_append]
  rw [hsplit]
  exact listContainsSub_append_left _ _ _ (hL st h2 h1)

theorem range'_map_backoff (b m : Nat) :
    (List.range' 1 m).map (fun k => b * 2 ^ (k - 1)) = backoffDelays b m := by
  rw [List.range'_eq_map_range]
  simp only [backoffDelays, List.map_map]
  apply List.map_congr_left
  intro i _
  simp

theorem callPspAux_exhaust (oracle : Nat → AttemptResult) (n b : Nat) :
    ∀ (r attempt : Nat) (lastMsg : String) (sleeps : List Nat) (made : Nat),
    attempt + r = n → 1 ≤ attempt →
    (∀ k, attempt ≤ k → k ≤ n → isFailureAttempt (oracle k) = true ∧
      isRetryableErr (oracle k) = true) →
    callPspAux oracle n b attempt (r + 1) lastMsg sleeps made =
      ⟨.error (exhaustedMsg n (errMessage (oracle n))), made + r + 1,
       sleeps ++ (List.range' attempt r).map (fun k => b * 2 ^ (k - 1))⟩ := by
  intro r
  induction r with
  | zero =>
    intro attempt lastMsg sleeps made hsum h1 hall
    have han : attempt = n := by omega
    subst han
    have hfail := (hall attempt le_rfl le_rfl).1
    have hret := (hall attempt le_rfl le_rfl).2
    have hnl : ¬ (attempt < attempt) := by omega
    cases ho : oracle attempt with
    | ok r' => rw [ho] at hfail; simp [isFailureAttempt] at hfail
    | networkError m =>
      rw [ho] at hret
      simp [callPspAux, ho, hret, hnl, errMessage]
    | httpError st body =>
      rw [ho] at hret
      simp [callPspAux, ho, hret, hnl, errMessage]
  | succ r ih =>
    intro attempt lastMsg sleeps made hsum h1 hall
    have hfail := (hall attempt le_rfl (by omega)).1
    have hret := (hall attempt le_rfl (by omega)).2
    have hlt : attempt < n := by omega
    have hall' : ∀ k, attempt + 1 ≤ k → k ≤ n →
        isFailureAttempt (oracle k) = true ∧ isRetryableErr (oracle k) = true :=
      fun k hk1 hk2 => hall k (by omega) hk2
    cases ho : oracle attempt with
    | ok r' => rw [ho] at hfail; simp [isFailureAttempt] at hfail
    | networkError m =>
      rw [ho] at hret
      have hstep := ih (attempt + 1) (errMessage (.networkError m))
        (sleeps ++ [b * 2 ^ (attempt - 1)]) (made + 1) (by omega) (by omega) hall'
      simp only [callPspAux, ho, hret, hlt, if_true, Bool.not_true, Bool.false_eq_true,
        if_false, errMessage] at hstep ⊢
      rw [hstep, List.range'_succ]
      simp [List.append_assoc]
      try omega
    | httpError st body =>
      rw [ho] at hret
      have hstep := ih (attempt + 1) (errMessage (.httpError st body))
        (sleeps ++ [b * 2 ^ (attempt - 1)]) (made + 1) (by omega) (by omega) hall'
      simp only [callPspAux, ho, hret, hlt, if_true, Bool.not_true, Bool.false_eq_true,
        if_false, errMessage] at hstep ⊢
      rw [hstep, List.range'_succ]
      simp [List.append_assoc]
      try omega

/-! ## C4: retry policy of `callPsp` -/

/-- Counterexample for C4: a client-class HTTP 400 response whose body
contains the text `status 5` is classified retryable — `isRetryable` tests
`error.message.includes('status 5')` and the message embeds the response
body — so the call is retried and succeeds on the second attempt (one
backoff sleep), instead of rethrowing after exactly one attempt with no
retry. -/
theorem claim_C4_counterexample :
    isRetryableErr (.httpError 400 "status 503 from upstream") = true ∧
    (callPsp bodyTrapOracle 3 10).result = .ok sampleResp ∧
    (callPsp bodyTrapOracle 3 10).attemptsMade = 2 ∧
    (callPsp bodyTrapOracle 3 10).sleeps = [10] :=
  ⟨rfl, rfl, rfl, rfl⟩

/-- C4 amended: `callPsp` retries exactly the failures its message test
classifies retryable — network errors and errors whose message contains
`status 5`, which covers every server-class (5xx) response but can also
cover a client-class response whose body contains that text. A failure the
test rejects is rethrown immediately after exactly one attempt with no
sleep; if all `n` attempts fail retryably the call fails with the
exhaustion error carrying the last underlying error's message after
`n` attempts and the backoff sleeps `b * 2 ^ (attempt - 1)` for attempts
`1 .. n-1` (never sleeping after the final attempt); and two consecutive
retryable failures followed by a success complete successfully with
exactly three attempts and sleeps `[b, 2b]`. -/
theorem claim_C4_retry_policy :
    (∀ (oracle : Nat → AttemptResult) (n b : Nat), 1 ≤ n →
      isFailureAttempt (oracle 1) = true → isRetryableErr (oracle 1) = false →
      callPsp oracle n b = ⟨.error (errMessage (oracle 1)), 1, []⟩) ∧
    (∀ (oracle : Nat → AttemptResult) (n b : Nat), 1 ≤ n →
      (∀ k, 1 ≤ k → k ≤ n → isFailureAttempt (oracle k) = true ∧
        isRetryableErr (oracle k) = true) →
      callPsp oracle n b =
        ⟨.error (exhaustedMsg n (errMessage (oracle n))), n, backoffDelays b (n - 1)⟩) ∧
    (∀ st, 500 ≤ st → st < 600 → ∀ body, isRetryableErr (.httpError st body) = true) ∧
    (∀ m, isRetryableErr (.networkError m) = true) ∧
    (∀ (oracle : Nat → AttemptResult) (b : Nat) (r : PspResponse),
      isFailureAttempt (oracle 1) = true → isRetryableErr (oracle 1) = true →
      isFailureAttempt (oracle 2) = true → isRetryableErr (oracle 2) = true →
      oracle 3 = .ok r →
      callPsp oracle 3 b = ⟨.ok r, 3, [b, b * 2]⟩) := by
  refine ⟨?_, ?_, fun st h1 h2 body => retryable_5xx st h1 h2 body, fun m => rfl, ?_⟩
  · intro oracle n b hn hfail hret
    cases n with
    | zero => omega
    | succ m =>
      cases ho : oracle 1 with
      | ok r' => rw [ho] at hfail; simp [isFailureAttempt] at hfail
      | networkError msg => rw [ho] at hret; simp [isRetryableErr] at hret
      | httpError st body =>
        rw [ho] at hret
        simp [callPsp, callPspAux, ho, hret, errMessage]
  · intro oracle n b hn hall
    cases n with
    | zero => omega
    | succ m =>
      have h := callPspAux_exhaust oracle (m + 1) b m 1 "undefined" [] 0
        (by omega) (by omega) hall
      simp only [callPsp]
      rw [h, range'_map_backoff]
      simp
  · intro oracle b r hf1 hr1 hf2 hr2 ho3
    cases ho1 : oracle 1 with
    | ok r' => rw [ho1] at hf1; simp [isFailureAttempt] at hf1
    | networkError m1 =>
      rw [ho1] at hr1
      cases ho2 : oracle 2 with
      | ok r' => rw [ho2] at hf2; simp [isFailureAttempt] at hf2
      | networkError m2 =>
        rw [ho2] at hr2
        simp [callPsp, callPspAux, ho1, ho2, ho3, hr1, hr2, errMessage, pow_succ]
      | httpError st2 b2 =>
        rw [ho2] at hr2
        simp [callPsp, callPspAux, ho1, ho2, ho3, hr1, hr2, errMessage, pow_succ]
    | httpError st1 b1 =>
      rw [ho1] at hr1
      cases ho2 : oracle 2 with
      | ok r' => rw [ho2] at hf2; simp [isFailureAttempt] at hf2
      | networkError m2 =>
        rw [ho2] at hr2
        simp [callPsp, callPspAux, ho1, ho2, ho3, hr1, hr2, errMessage, pow_succ]
      | httpError st2 b2 =>
        rw [ho2] at hr2
        simp [callPsp, callPspAux, ho1, ho2, ho3, hr1, hr2, errMessage, pow_succ]

/-- Witness for C4: two HTTP 503 failures then a success complete with
exactly three attempts and sleeps `[10, 20]`. -/
theorem claim_C4_retry_policy_witness :
    isRetryableErr (twoFailOracle 1) = true ∧
    callPsp twoFailOracle 3 10 = ⟨.ok sampleResp, 3, [10, 10 * 2]⟩ :=
  ⟨rfl, claim_C4_retry_policy.2.2.2.2 twoFailOracle 10 sampleResp rfl rfl rfl rfl rfl⟩

/-! ## Helper lemmas about the pending-3DS registry -/

theorem alookup_unique (id cb : String) (amt : Nat)
    (l : List (String × String × Nat))
    (h : ∀ v, (id, v) ∈ l ↔ v = (cb, amt)) : alookup id l = some (cb, amt) := by
  induction l with
  | nil => exact absurd ((h (cb, amt)).mpr rfl) (List.not_mem_nil _)
  | cons e rest ih =>
    obtain ⟨k, v⟩ := e
    by_cases hk : k = id
    · subst hk
      have : v = (cb, amt) := (h v).mp (List.mem_cons_self _ _)
      simp [alookup, this]
    · simp only [alookup, if_neg hk]
      apply ih
      intro v2
      constructor
      · intro hv2
        exact (h v2).mp (List.mem_cons_of_mem _ hv2)
      · intro hv2
        have hm := (h v2).mpr hv2
        rcases List.mem_cons.mp hm with heq | hmem
        · exact absurd (congrArg Prod.fst heq).symm hk
        · exact hmem

theorem alookup_eq_none (id : String) (l : List (String × String × Nat))
    (h : ∀ v, (id, v) ∉ l) : alookup id l = none := by
  induction l with
  | nil => rfl
  | cons e rest ih =>
    obtain ⟨k, v⟩ := e
    by_cases hk : k = id
    · subst hk
      exact absurd (List.mem_cons_self _ _) (h v)
    · simp only [alookup, if_neg hk]
      exact ih fun v2 hv2 => h v2 (List.mem_cons_of_mem _ hv2)

theorem mem_aerase (id k : String) (v : String × Nat)
    (l : List (String × String × Nat)) :
    (k, v) ∈ aerase id l ↔ (k, v) ∈ l ∧ k ≠ id := by
  simp [aerase, List.mem_filter]

theorem phaseLive_step (id cb : String) (amt : Nat) (s : SimState) (e : SimEvent)
    (hB : PhaseLive id cb amt s) (hne1 : e ≠ .resolve id)
    (hne2 : e ≠ .fire id cb amt) : PhaseLive id cb amt (simStep s e) := by
  obtain ⟨hp, ha, hu, hs⟩ := hB
  cases e with
  | register id2 cb2 amt2 =>
    by_cases hid : id2 = id
    · subst hid
      simp only [simStep, register3ds, if_pos hu]
      exact ⟨hp, ha, hu, hs⟩
    · simp only [simStep, register3ds]
      split
      · exact ⟨hp, ha, hu, hs⟩
      · refine ⟨?_, ?_, List.mem_cons_of_mem _ hu, hs⟩
        · intro v
          simp only [List.mem_cons]
          constructor
          · rintro (heq | hmem)
            · exact absurd (congrArg Prod.fst heq).symm hid
            · exact (hp v).mp hmem
          · intro hv
            exact Or.inr ((hp v).mpr hv)
        · intro v
          simp only [List.mem_cons]
          constructor
          · rintro (heq | hmem)
            · exact absurd (congrArg Prod.fst heq).symm hid
            · exact (ha v).mp hmem
          · intro hv
            exact Or.inr ((ha v).mpr hv)
  | fire id2 cb2 amt2 =>
    by_cases hid : id2 = id
    · have hnotmem : (id2, cb2, amt2) ∉ s.armed := by
        rw [hid]
        intro hmem
        have hv := (ha (cb2, amt2)).mp hmem
        injection hv with h1 h2
        subst h1
        subst h2
        exact hne2 (by rw [hid])
      simp only [simStep, fireExpiry, if_neg hnotmem]
      exact ⟨hp, ha, hu, hs⟩
    · have hid2 : id ≠ id2 := fun h => hid h.symm
      simp only [simStep, fireExpiry]
      split
      · split
        · refine ⟨?_, ?_, hu, ?_⟩
          · intro v
            rw [mem_aerase]
            constructor
            · rintro ⟨hmem, -⟩
              exact (hp v).mp hmem
            · intro hv
              exact ⟨(hp v).mpr hv, hid2⟩
          · intro v
            rw [mem_aerase]
            constructor
            · rintro ⟨hmem, -⟩
              exact (ha v).mp hmem
            · intro hv
              exact ⟨(ha v).mpr hv, hid2⟩
          · simpa [sentFor, hid] using hs
        · refine ⟨hp, ?_, hu, hs⟩
          intro v
          rw [mem_aerase]
          constructor
          · rintro ⟨hmem, -⟩
            exact (ha v).mp hmem
          · intro hv
            exact ⟨(ha v).mpr hv, hid2⟩
      · exact ⟨hp, ha, hu, hs⟩
  | resolve id2 =>
    by_cases hid : id2 = id
    · subst hid
      exact absurd rfl hne1
    · have hid2 : id ≠ id2 := fun h => hid h.symm
      simp only [simStep, resolve3ds]
      cases hl : alookup id2 s.pending with
      | none => exact ⟨hp, ha, hu, hs⟩
      | some p =>
        obtain ⟨cb2, amt2⟩ := p
        refine ⟨?_, ?_, hu, ?_⟩
        · intro v
          rw [mem_aerase]
          constructor
          · rintro ⟨hmem, -⟩
            exact (hp v).mp hmem
          · intro hv
            exact ⟨(hp v).mpr hv, hid2⟩
        · intro v
          rw [mem_aerase]
          constructor
          · rintro ⟨hmem, -⟩
            exact (ha v).mp hmem
          · intro hv
            exact ⟨(ha v).mpr hv, hid2⟩
        · simpa [sentFor, hid] using hs

theorem phaseLive_resolve (id cb : String) (amt : Nat) (s : SimState)
    (hB : PhaseLive id cb amt s) :
    PhaseDone id [(id, amt, "SUCCESS")] (simStep s (.resolve id)) := by
  obtain ⟨hp, ha, hu, hs⟩ := hB
  have hl : alookup id s.pending = some (cb, amt) := alookup_unique id cb amt s.pending hp
  simp only [simStep, resolve3ds, hl]
  refine ⟨?_, ?_, hu, ?_⟩
  · intro v
    rw [mem_aerase]
    rintro ⟨-, habs⟩
    exact habs rfl
  · intro v
    rw [mem_aerase]
    rintro ⟨-, habs⟩
    exact habs rfl
  · simp only [sentFor] at hs ⊢
    simp [hs]

theorem phaseLive_fire (id cb : String) (amt : Nat) (s : SimState)
    (hB : PhaseLive id cb amt s) :
    PhaseDone id [(id, amt, "FAILED")] (simStep s (.fire id cb amt)) := by
  obtain ⟨hp, ha, hu, hs⟩ := hB
  have hmem : (id, cb, amt) ∈ s.armed := (ha (cb, amt)).mpr rfl
  have hl : alookup id s.pending = some (cb, amt) := alookup_unique id cb amt s.pending hp
  simp only [simStep, fireExpiry, if_pos hmem, hl, Option.isSome_some, if_true]
  refine ⟨?_, ?_, hu, ?_⟩
  · intro v
    rw [mem_aerase]
    rintro ⟨-, habs⟩
    exact habs rfl
  · intro v
    rw [mem_aerase]
    rintro ⟨-, habs⟩
    exact habs rfl
  · simp only [sentFor] at hs ⊢
    simp [hs]

theorem phaseDone_step (id : String) (out : List (String × Nat × String))
    (s : SimState) (hD : PhaseDone id out s) (e : SimEvent) :
    PhaseDone id out (simStep s e) := by
  obtain ⟨hp, ha, hu, hs⟩ := hD
  cases e with
  | register id2 cb2 amt2 =>
    by_cases hid : id2 = id
    · subst hid
      simp only [simStep, register3ds, if_pos hu]
      exact ⟨hp, ha, hu, hs⟩
    · simp only [simStep, register3ds]
      split
      · exact ⟨hp, ha, hu, hs⟩
      · refine ⟨?_, ?_, List.mem_cons_of_mem _ hu, hs⟩
        · intro v
          simp only [List.mem_cons]
          rintro (heq | hmem)
          · exact hid (congrArg Prod.fst heq).symm
          · exact hp v hmem
        · intro v
          simp only [List.mem_cons]
          rintro (heq | hmem)
          · exact hid (congrArg Prod.fst heq).symm
          · exact ha v hmem
  | fire id2 cb2 amt2 =>
    by_cases hid : id2 = id
    · have hnm : (id2, cb2, amt2) ∉ s.armed := by
        rw [hid]
        exact ha (cb2, amt2)
      simp only [simStep, fireExpiry, if_neg hnm]
      exact ⟨hp, ha, hu, hs⟩
    · have hid2 : id ≠ id2 := fun h => hid h.symm
      simp only [simStep, fireExpiry]
      split
      · split
        · refine ⟨?_, ?_, hu, ?_⟩
          · intro v hv
            rw [mem_aerase] at hv
            exact hp v hv.1
          · intro v hv
            rw [mem_aerase] at hv
            exact ha v hv.1
          · simpa [sentFor, hid] using hs
        · refine ⟨hp, ?_, hu, hs⟩
          intro v hv
          rw [mem_aerase] at hv
          exact ha v hv.1
      · exact ⟨hp, ha, hu, hs⟩
  | resolve id2 =>
    by_cases hid : id2 = id
    · have hl : alookup id2 s.pending = none := by
        rw [hid]
        exact alookup_eq_none id s.pending hp
      simp only [simStep, resolve3ds, hl]
      exact ⟨hp, ha, hu, hs⟩
    · have hid2 : id ≠ id2 := fun h => hid h.symm
      simp only [simStep, resolve3ds]
      cases hl : alookup id2 s.pending with
      | none => exact ⟨hp, ha, hu, hs⟩
      | some p =>
        obtain ⟨cb2, amt2⟩ := p
        refine ⟨?_, ?_, hu, ?_⟩
        · intro v hv
          rw [mem_aerase] at hv
          exact hp v hv.1
        · intro v hv
          rw [mem_aerase] at hv
          exact ha v hv.1
        · simpa [sentFor, hid] using hs

theorem phaseDone_run (id : String) (out : List (String × Nat × String)) :
    ∀ (t : List SimEvent) (s : SimState), PhaseDone id out s →
    PhaseDone id out (simRun s t) := by
  intro t
  induction t with
  | nil => intro s hD; exact hD
  | cons e es ih =>
    intro s hD
    exact ih _ (phaseDone_step id out s hD e)

theorem phaseLive_run_cases (id cb : String) (amt : Nat) :
    ∀ (t : List SimEvent) (s : SimState), PhaseLive id cb amt s →
    PhaseLive id cb amt (simRun s t) ∨
    PhaseDone id [(id, amt, "SUCCESS")] (simRun s t) ∨
    PhaseDone id [(id, amt, "FAILED")] (simRun s t) := by
  intro t
  induction t with
  | nil => intro s hB; exact Or.inl hB
  | cons e es ih =>
    intro s hB
    by_cases h1 : e = .resolve id
    · subst h1
      exact Or.inr (Or.inl (phaseDone_run _ _ es _ (phaseLive_resolve id cb amt s hB)))
    · by_cases h2 : e = .fire id cb amt
      · subst h2
        exact Or.inr (Or.inr (phaseDone_run _ _ es _ (phaseLive_fire id cb amt s hB)))
      · exact ih _ (phaseLive_step id cb amt s e hB h1 h2)

theorem phaseLive_run_noresolve (id cb : String) (amt : Nat) :
    ∀ (t : List SimEvent) (s : SimState), PhaseLive id cb amt s →
    SimEvent.resolve id ∉ t → SimEvent.fire id cb amt ∈ t →
    PhaseDone id [(id, amt, "FAILED")] (simRun s t) := by
  intro t
  induction t with
  | nil =>
    intro s _ _ hf
    exact absurd hf (List.not_mem_nil _)
  | cons e es ih =>
    intro s hB hr hf
    by_cases h2 : e = .fire id cb amt
    · subst h2
      exact phaseDone_run _ _ es _ (phaseLive_fire id cb amt s hB)
    · have h1 : e ≠ .resolve id := fun h => hr (by rw [← h]; exact List.mem_cons_self _ _)
      have hf2 : SimEvent.fire id cb amt ∈ es := by
        rcases List.mem_cons.mp hf with heq | hmem
        · exact absurd heq.symm h2
        · exact hmem
      exact ih _ (phaseLive_step id cb amt s e hB h1 h2)
        (fun h => hr (List.mem_cons_of_mem _ h)) hf2

theorem phaseLive_run_resolveFirst (id cb : String) (amt : Nat) :
    ∀ (u1 : List SimEvent) (s : SimState), PhaseLive id cb amt s →
    SimEvent.resolve id ∉ u1 →
    (∀ cb2 amt2, SimEvent.fire id cb2 amt2 ∉ u1) →
    ∀ u2, PhaseDone id [(id, amt, "SUCCESS")]
      (simRun s (u1 ++ SimEvent.resolve id :: u2)) := by
  intro u1
  induction u1 with
  | nil =>
    intro s hB _ _ u2
    exact phaseDone_run _ _ u2 _ (phaseLive_resolve id cb amt s hB)
  | cons e es ih =>
    intro s hB hr hf u2
    have h1 : e ≠ .resolve id := fun h => hr (by rw [← h]; exact List.mem_cons_self _ _)
    have h2 : e ≠ .fire id cb amt :=
      fun h => hf cb amt (by rw [← h]; exact List.mem_cons_self _ _)
    exact ih _ (phaseLive_step id cb amt s e hB h1 h2)
      (fun h => hr (List.mem_cons_of_mem _ h))
      (fun cb2 amt2 h => hf cb2 amt2 (List.mem_cons_of_mem _ h)) u2

/-! ## C5: the expiry timer races manual resolution -/

/-- C5: for a freshly registered pending challenge, exactly one of the two
destruction paths ever delivers a notification. At most one notification is
ever delivered for the registered id; if the entry is never resolved and
its expiry timer fires, exactly one `FAILED` notification with the stored
amount is delivered (a later fire is impossible — the fire path checks the
entry is still present and the timer is disarmed); and if `resolve` runs
before the timer fires, the timer is cancelled, no `FAILED` expiry
notification is ever delivered, and exactly one delayed `SUCCESS`
notification is. -/
theorem claim_C5_expiry_race (s : SimState) (id cb : String) (amt : Nat)
    (hused : id ∉ s.used) (hpend : ∀ v, (id, v) ∉ s.pending)
    (harm : ∀ v, (id, v) ∉ s.armed) (hsent : sentFor id s = []) :
    (∀ t, (sentFor id (simRun (simStep s (.register id cb amt)) t)).length ≤ 1) ∧
    (∀ t, SimEvent.resolve id ∉ t → SimEvent.fire id cb amt ∈ t →
      sentFor id (simRun (simStep s (.register id cb amt)) t) =
        [(id, amt, "FAILED")]) ∧
    (∀ u1 u2, SimEvent.resolve id ∉ u1 →
      (∀ cb2 amt2, SimEvent.fire id cb2 amt2 ∉ u1) →
      sentFor id
        (simRun (simStep s (.register id cb amt)) (u1 ++ SimEvent.resolve id :: u2)) =
        [(id, amt, "SUCCESS")]) := by
  have hB : PhaseLive id cb amt (simStep s (.register id cb amt)) := by
    simp only [simStep, register3ds, if_neg hused]
    refine ⟨?_, ?_, List.mem_cons_self _ _, hsent⟩
    · intro v
      simp only [List.mem_cons]
      constructor
      · rintro (heq | hmem)
        · exact congrArg Prod.snd heq
        · exact absurd hmem (hpend v)
      · intro hv
        rw [hv]
        exact Or.inl rfl
    · intro v
      simp only [List.mem_cons]
      constructor
      · rintro (heq | hmem)
        · exact congrArg Prod.snd heq
        · exact absurd hmem (harm v)
      · intro hv
        rw [hv]
        exact Or.inl rfl
  refine ⟨?_, ?_, ?_⟩
  · intro t
    rcases phaseLive_run_cases id cb amt t _ hB with h | h | h
    · rw [h.2.2.2]
      simp
    · rw [h.2.2.2]
      simp
    · rw [h.2.2.2]
      simp
  · intro t hr hf
    exact (phaseLive_run_noresolve id cb amt t _ hB hr hf).2.2.2
  · intro u1 u2 hr hf
    exact (phaseLive_run_resolveFirst id cb amt u1 _ hB hr hf u2).2.2.2

/-- Witness for C5: registering `tx_1` in the empty simulator and letting
its timer fire delivers exactly the one `FAILED` notification with the
stored amount. -/
theorem claim_C5_expiry_race_witness :
    ("tx_1" ∉ initialSimState.used) ∧
    (SimEvent.resolve "tx_1" ∉ [SimEvent.fire "tx_1" "http://cb" 500]) ∧
    sentFor "tx_1"
      (simRun (simStep initialSimState (.register "tx_1" "http://cb" 500))
        [SimEvent.fire "tx_1" "http://cb" 500]) = [("tx_1", 500, "FAILED")] :=
  ⟨by simp [initialSimState], by decide,
   (claim_C5_expiry_race initialSimState "tx_1" "http://cb" 500
      (by simp [initialSimState]) (fun v => by simp [initialSimState])
      (fun v => by simp [initialSimState]) rfl).2.1
     [SimEvent.fire "tx_1" "http://cb" 500] (by decide) (by decide)⟩

end PSPEmulation
